import Mathlib

/-!
Shallow embedding of the token and theming core of the synchronicity-ds
repository: the primitive color tables (packages/tokens/src/primitives/colors.ts),
the three theme-scoped semantic color tables
(packages/tokens/src/semantic/colors.ts), the theme-independent semantic
tables, the component token tables, the theme factory createTheme
(packages/tokens/src/index.ts) and the theme provider state machine.
JavaScript objects are embedded as association lists over String keys, and
JavaScript member access (which yields undefined on a missing key) is
embedded as an Option-valued lookup.
-/

namespace SyncDS

/-- Lookup in an association list, embedding JavaScript object member access:
a missing key yields none (undefined). -/
def pget {α : Type} (tbl : List (String × α)) (k : String) : Option α :=
  (tbl.find? (fun p => p.1 == k)).map Prod.snd

def gold : List (String × String) := [
  ("gold-10", "#fffdf5"),
  ("gold-20", "#fff8e1"),
  ("gold-30", "#ffecb3"),
  ("gold-40", "#ffe082"),
  ("gold-50", "#ffd54f"),
  ("gold-60", "#d4af37"),
  ("gold-70", "#c9a868"),
  ("gold-80", "#b8972f"),
  ("gold-90", "#8a7424"),
  ("gold-100", "#6b4f00"),
  ("gold-glow", "#ffe8a3"),
  ("gold-light-accent", "#f4cf67"),
  ("gold-accessible", "#886a00"),
  ("gold-accessible-dark", "#6b4f00")
]

def gray : List (String × String) := [
  ("gray-warm-10", "#f5f2ea"),
  ("gray-warm-20", "#eae5db"),
  ("gray-warm-30", "#dacfc5"),
  ("gray-warm-40", "#8a7f75"),
  ("gray-warm-50", "#6b5f55"),
  ("gray-warm-60", "#5a4f45"),
  ("gray-warm-70", "#3a3530"),
  ("gray-warm-80", "#2a2520"),
  ("gray-cool-10", "#e8e6e3"),
  ("gray-cool-20", "#b8b6b3"),
  ("gray-cool-30", "#a8a6a3"),
  ("gray-cool-40", "#8a8a9a"),
  ("gray-cool-50", "#7585a0"),
  ("gray-cool-60", "#5a6578"),
  ("gray-cool-70", "#4a5568"),
  ("gray-cool-80", "#2a2a38"),
  ("gray-cool-90", "#1e1e2e"),
  ("gray-cool-100", "#12121a")
]

def neutral : List (String × String) := [
  ("black", "#000000"),
  ("white", "#ffffff"),
  ("void", "#0a0a0f"),
  ("void-pure", "#000000"),
  ("void-surface", "#0a0a0a"),
  ("cream", "#faf8f3"),
  ("cream-warm", "#f5f2ea"),
  ("cream-deep", "#eeebe2")
]

def ethereal : List (String × String) := [
  ("ethereal-blue-10", "#e0f2fe"),
  ("ethereal-blue-20", "#bae6fd"),
  ("ethereal-blue-30", "#7dd3fc"),
  ("ethereal-blue-40", "#38bdf8"),
  ("ethereal-blue-50", "#0ea5e9"),
  ("ethereal-blue-60", "#6b9ac4"),
  ("ethereal-indigo-10", "#e0e7ff"),
  ("ethereal-indigo-20", "#c7d2fe"),
  ("ethereal-indigo-30", "#a5b4fc"),
  ("ethereal-indigo-40", "#818cf8"),
  ("ethereal-indigo-50", "#6366f1"),
  ("ethereal-indigo-60", "#9b8aa8"),
  ("ethereal-violet-10", "#ede9fe"),
  ("ethereal-violet-20", "#ddd6fe"),
  ("ethereal-violet-30", "#c4b5fd"),
  ("ethereal-violet-40", "#a78bfa"),
  ("ethereal-violet-50", "#8b5cf6"),
  ("ethereal-violet-60", "#b19cd9")
]

def support : List (String × String) := [
  ("support-green-10", "#d1fae5"),
  ("support-green-20", "#a7f3d0"),
  ("support-green-30", "#6ee7b7"),
  ("support-green-40", "#34d399"),
  ("support-green-50", "#10b981"),
  ("support-green-60", "#059669"),
  ("support-red-10", "#fee2e2"),
  ("support-red-20", "#fecaca"),
  ("support-red-30", "#fca5a5"),
  ("support-red-40", "#f87171"),
  ("support-red-50", "#ef4444"),
  ("support-red-60", "#dc2626"),
  ("support-amber-10", "#fef3c7"),
  ("support-amber-20", "#fde68a"),
  ("support-amber-30", "#fcd34d"),
  ("support-amber-40", "#fbbf24"),
  ("support-amber-50", "#f59e0b"),
  ("support-amber-60", "#d97706")
]

def lightColors : List (String × Option String) := [
  ("background", pget neutral "cream"),
  ("surface", pget neutral "cream-warm"),
  ("surface-elevated", pget neutral "cream-deep"),
  ("border", pget gray "gray-warm-30"),
  ("text-primary", pget gray "gray-warm-80"),
  ("text-secondary", pget gray "gray-warm-60"),
  ("text-tertiary", pget gray "gray-warm-50"),
  ("text-disabled", pget gray "gray-warm-40"),
  ("text-inverse", pget neutral "white"),
  ("text-on-color", pget neutral "white"),
  ("gold-primary", pget gold "gold-accessible"),
  ("gold-light", pget gold "gold-60"),
  ("gold-muted", pget gold "gold-accessible"),
  ("gold-dark", pget gold "gold-accessible-dark"),
  ("gold-glow", pget gold "gold-light-accent"),
  ("text-accent", pget gold "gold-accessible"),
  ("interactive-primary", pget gold "gold-accessible"),
  ("interactive-primary-hover", pget gold "gold-100"),
  ("interactive-primary-active", pget gold "gold-accessible-dark"),
  ("interactive-secondary", pget gray "gray-warm-20"),
  ("interactive-secondary-hover", pget gray "gray-warm-30"),
  ("interactive-disabled", pget gray "gray-warm-30"),
  ("border-subtle", pget gray "gray-warm-20"),
  ("border-default", pget gray "gray-warm-30"),
  ("border-strong", pget gray "gray-warm-50"),
  ("border-inverse", pget gray "gray-warm-80"),
  ("border-accent", pget gold "gold-accessible"),
  ("border-focus", pget gold "gold-accessible"),
  ("ethereal-blue", some "#6b7c9a"),
  ("ethereal-indigo", some "#7b7fc9"),
  ("ethereal-violet", some "#9b8cd6"),
  ("support-success", some "#0d8f68"),
  ("support-success-subtle", pget support "support-green-10"),
  ("support-warning", some "#d87600"),
  ("support-warning-subtle", pget support "support-amber-10"),
  ("support-error", some "#c93a3a"),
  ("support-error-subtle", pget support "support-red-10"),
  ("support-info", pget ethereal "ethereal-blue-50"),
  ("support-info-subtle", pget ethereal "ethereal-blue-10"),
  ("alert-info-bg", some "rgba(107, 124, 154, 0.1)"),
  ("alert-info-border", pget ethereal "ethereal-blue-30"),
  ("alert-info-text", pget ethereal "ethereal-blue-60"),
  ("alert-info-title", pget ethereal "ethereal-blue-70"),
  ("alert-success-bg", some "rgba(13, 143, 104, 0.1)"),
  ("alert-success-border", pget support "support-green-30"),
  ("alert-success-text", pget support "support-green-60"),
  ("alert-success-title", pget support "support-green-70"),
  ("alert-warning-bg", some "rgba(216, 118, 0, 0.1)"),
  ("alert-warning-border", pget support "support-amber-30"),
  ("alert-warning-text", pget support "support-amber-60"),
  ("alert-warning-title", pget support "support-amber-70"),
  ("alert-error-bg", some "rgba(201, 58, 58, 0.1)"),
  ("alert-error-border", pget support "support-red-30"),
  ("alert-error-text", pget support "support-red-60"),
  ("alert-error-title", pget support "support-red-70"),
  ("gray-900", pget gray "gray-warm-70"),
  ("gray-700", pget gray "gray-warm-60"),
  ("gray-600", some "#7a6f65"),
  ("gray-500", pget gray "gray-warm-50"),
  ("gray-400", pget gray "gray-warm-40"),
  ("gray-300", pget gray "gray-warm-30"),
  ("gray-200", pget gray "gray-warm-20"),
  ("gray-100", pget gray "gray-warm-10"),
  ("overlay-light", some "rgba(255, 255, 255, 0.7)"),
  ("overlay-dark", some "rgba(0, 0, 0, 0.5)"),
  ("hexagram-line", pget gray "gray-warm-70"),
  ("hexagram-line-changing", pget gold "gold-60")
]

def darkColors : List (String × Option String) := [
  ("background", pget neutral "void"),
  ("surface", pget gray "gray-cool-100"),
  ("surface-elevated", pget gray "gray-cool-90"),
  ("border", some "#1a1a24"),
  ("text-primary", pget gray "gray-cool-10"),
  ("text-secondary", pget gray "gray-cool-20"),
  ("text-tertiary", pget gray "gray-cool-40"),
  ("text-disabled", pget gray "gray-cool-60"),
  ("text-inverse", pget gray "gray-cool-100"),
  ("text-on-color", pget gray "gray-cool-100"),
  ("gold-primary", pget gold "gold-60"),
  ("gold-light", pget gold "gold-light-accent"),
  ("gold-muted", pget gold "gold-70"),
  ("gold-dark", pget gold "gold-90"),
  ("gold-glow", pget gold "gold-glow"),
  ("text-accent", pget gold "gold-50"),
  ("interactive-primary", pget gold "gold-60"),
  ("interactive-primary-hover", pget gold "gold-50"),
  ("interactive-primary-active", pget gold "gold-40"),
  ("interactive-secondary", pget gray "gray-cool-80"),
  ("interactive-secondary-hover", pget gray "gray-cool-70"),
  ("interactive-disabled", pget gray "gray-cool-70"),
  ("border-subtle", pget gray "gray-cool-80"),
  ("border-default", pget gray "gray-cool-70"),
  ("border-strong", pget gray "gray-cool-50"),
  ("border-inverse", pget gray "gray-cool-20"),
  ("border-accent", pget gold "gold-50"),
  ("border-focus", pget gold "gold-50"),
  ("ethereal-blue", pget gray "gray-cool-70"),
  ("ethereal-indigo", pget ethereal "ethereal-indigo-50"),
  ("ethereal-violet", pget ethereal "ethereal-violet-50"),
  ("support-success", pget support "support-green-50"),
  ("support-success-subtle", pget support "support-green-60"),
  ("support-warning", pget support "support-amber-50"),
  ("support-warning-subtle", pget support "support-amber-60"),
  ("support-error", pget support "support-red-50"),
  ("support-error-subtle", pget support "support-red-60"),
  ("support-info", pget ethereal "ethereal-blue-40"),
  ("support-info-subtle", pget ethereal "ethereal-blue-60"),
  ("alert-info-bg", some "rgba(99, 102, 241, 0.1)"),
  ("alert-info-border", some "rgba(99, 102, 241, 0.3)"),
  ("alert-info-text", some "#a5b4fc"),
  ("alert-info-title", some "#c7d2fe"),
  ("alert-success-bg", some "rgba(16, 185, 129, 0.1)"),
  ("alert-success-border", some "rgba(16, 185, 129, 0.3)"),
  ("alert-success-text", some "#6ee7b7"),
  ("alert-success-title", some "#a7f3d0"),
  ("alert-warning-bg", some "rgba(245, 158, 11, 0.1)"),
  ("alert-warning-border", some "rgba(245, 158, 11, 0.3)"),
  ("alert-warning-text", some "#fcd34d"),
  ("alert-warning-title", some "#fde68a"),
  ("alert-error-bg", some "rgba(239, 68, 68, 0.1)"),
  ("alert-error-border", some "rgba(239, 68, 68, 0.3)"),
  ("alert-error-text", some "#fca5a5"),
  ("alert-error-title", some "#fecaca"),
  ("gray-900", pget gray "gray-cool-80"),
  ("gray-700", pget gray "gray-cool-70"),
  ("gray-600", pget gray "gray-cool-60"),
  ("gray-500", pget gray "gray-cool-50"),
  ("gray-400", pget gray "gray-cool-40"),
  ("gray-300", pget gray "gray-cool-30"),
  ("gray-200", pget gray "gray-cool-20"),
  ("gray-100", pget gray "gray-cool-10"),
  ("overlay-light", some "rgba(255, 255, 255, 0.1)"),
  ("overlay-dark", some "rgba(0, 0, 0, 0.7)"),
  ("hexagram-line", pget gray "gray-cool-20"),
  ("hexagram-line-changing", pget gold "gold-50")
]

def trueBlackColors : List (String × Option String) := [
  ("background", pget neutral "void-pure"),
  ("surface", pget neutral "void-surface"),
  ("surface-elevated", some "#141414"),
  ("border", some "#1a1a1a"),
  ("text-primary", pget gray "gray-cool-10"),
  ("text-secondary", pget gray "gray-cool-20"),
  ("text-tertiary", pget gray "gray-cool-40"),
  ("text-disabled", pget gray "gray-cool-60"),
  ("text-inverse", pget gray "gray-cool-100"),
  ("text-on-color", pget gray "gray-cool-100"),
  ("gold-primary", pget gold "gold-60"),
  ("gold-light", pget gold "gold-light-accent"),
  ("gold-muted", pget gold "gold-70"),
  ("gold-dark", pget gold "gold-90"),
  ("gold-glow", pget gold "gold-glow"),
  ("text-accent", pget gold "gold-50"),
  ("interactive-primary", pget gold "gold-60"),
  ("interactive-primary-hover", pget gold "gold-50"),
  ("interactive-primary-active", pget gold "gold-40"),
  ("interactive-secondary", pget gray "gray-cool-80"),
  ("interactive-secondary-hover", pget gray "gray-cool-70"),
  ("interactive-disabled", pget gray "gray-cool-70"),
  ("border-subtle", pget gray "gray-cool-80"),
  ("border-default", pget gray "gray-cool-70"),
  ("border-strong", pget gray "gray-cool-50"),
  ("border-inverse", pget gray "gray-cool-20"),
  ("border-accent", pget gold "gold-50"),
  ("border-focus", pget gold "gold-50"),
  ("ethereal-blue", pget gray "gray-cool-70"),
  ("ethereal-indigo", pget ethereal "ethereal-indigo-50"),
  ("ethereal-violet", pget ethereal "ethereal-violet-50"),
  ("support-success", pget support "support-green-50"),
  ("support-success-subtle", pget support "support-green-60"),
  ("support-warning", pget support "support-amber-50"),
  ("support-warning-subtle", pget support "support-amber-60"),
  ("support-error", pget support "support-red-50"),
  ("support-error-subtle", pget support "support-red-60"),
  ("support-info", pget ethereal "ethereal-blue-40"),
  ("support-info-subtle", pget ethereal "ethereal-blue-60"),
  ("alert-info-bg", some "rgba(99, 102, 241, 0.1)"),
  ("alert-info-border", some "rgba(99, 102, 241, 0.3)"),
  ("alert-info-text", some "#a5b4fc"),
  ("alert-info-title", some "#c7d2fe"),
  ("alert-success-bg", some "rgba(16, 185, 129, 0.1)"),
  ("alert-success-border", some "rgba(16, 185, 129, 0.3)"),
  ("alert-success-text", some "#6ee7b7"),
  ("alert-success-title", some "#a7f3d0"),
  ("alert-warning-bg", some "rgba(245, 158, 11, 0.1)"),
  ("alert-warning-border", some "rgba(245, 158, 11, 0.3)"),
  ("alert-warning-text", some "#fcd34d"),
  ("alert-warning-title", some "#fde68a"),
  ("alert-error-bg", some "rgba(239, 68, 68, 0.1)"),
  ("alert-error-border", some "rgba(239, 68, 68, 0.3)"),
  ("alert-error-text", some "#fca5a5"),
  ("alert-error-title", some "#fecaca"),
  ("gray-900", pget gray "gray-cool-80"),
  ("gray-700", pget gray "gray-cool-70"),
  ("gray-600", pget gray "gray-cool-60"),
  ("gray-500", pget gray "gray-cool-50"),
  ("gray-400", pget gray "gray-cool-40"),
  ("gray-300", pget gray "gray-cool-30"),
  ("gray-200", pget gray "gray-cool-20"),
  ("gray-100", pget gray "gray-cool-10"),
  ("overlay-light", some "rgba(255, 255, 255, 0.1)"),
  ("overlay-dark", some "rgba(0, 0, 0, 0.7)"),
  ("hexagram-line", pget gray "gray-cool-20"),
  ("hexagram-line-changing", pget gold "gold-50")
]


/-- Spacing primitives (packages/tokens/src/primitives/spacing.ts), a 4px grid. -/
def spacing : List (String × Nat) := [
  ("space-0", 0), ("space-1", 4), ("space-2", 8), ("space-3", 12),
  ("space-4", 16), ("space-5", 20), ("space-6", 24), ("space-7", 28),
  ("space-8", 32), ("space-9", 36), ("space-10", 40), ("space-11", 44),
  ("space-12", 48), ("space-13", 52), ("space-14", 56), ("space-15", 60),
  ("space-16", 64), ("space-20", 80), ("space-24", 96), ("space-32", 128)
]

/-- Font size primitives (packages/tokens/src/primitives/typography.ts). -/
def fontSize : List (String × Nat) := [
  ("font-size-10", 10), ("font-size-12", 12), ("font-size-14", 14),
  ("font-size-16", 16), ("font-size-18", 18), ("font-size-20", 20),
  ("font-size-24", 24), ("font-size-28", 28), ("font-size-32", 32),
  ("font-size-36", 36), ("font-size-40", 40), ("font-size-48", 48),
  ("font-size-56", 56), ("font-size-64", 64), ("font-size-72", 72),
  ("font-size-96", 96)
]

/-- Font weight primitives (string-valued in the source). -/
def fontWeight : List (String × String) := [
  ("font-weight-300", "300"), ("font-weight-400", "400"),
  ("font-weight-500", "500"), ("font-weight-600", "600"),
  ("font-weight-700", "700"), ("font-weight-900", "900")
]

/-- Line height multiplier primitives; the decimal values are embedded as exact rationals. -/
def lineHeight : List (String × Rat) := [
  ("line-height-100", 1.0), ("line-height-120", 1.2), ("line-height-140", 1.4),
  ("line-height-150", 1.5), ("line-height-160", 1.6), ("line-height-180", 1.8),
  ("line-height-200", 2.0)
]

/-- Letter spacing primitives (pixels), embedded as exact rationals. -/
def letterSpacing : List (String × Rat) := [
  ("letter-spacing-tight", -0.5), ("letter-spacing-normal", 0),
  ("letter-spacing-wide", 0.5), ("letter-spacing-wider", 1),
  ("letter-spacing-widest", 2), ("letter-spacing-ultra", 4),
  ("letter-spacing-extreme", 6), ("letter-spacing-ritual", 8)
]

/-- Border radius primitives (packages/tokens/src/primitives/radius.ts). -/
def radius : List (String × Nat) := [
  ("radius-0", 0), ("radius-2", 2), ("radius-4", 4), ("radius-6", 6),
  ("radius-8", 8), ("radius-12", 12), ("radius-16", 16), ("radius-20", 20),
  ("radius-24", 24), ("radius-full", 9999)
]

/-- Value of a z-index primitive: a number, or the string value auto. -/
inductive ZVal where
  | num (n : Nat)
  | auto
deriving DecidableEq, Repr

/-- Z-index primitives (packages/tokens/src/primitives/z-index.ts). -/
def zIndex : List (String × ZVal) := [
  ("z-0", .num 0), ("z-10", .num 10), ("z-20", .num 20),
  ("z-30", .num 30), ("z-40", .num 40), ("z-50", .num 50),
  ("z-auto", .auto)
]

/-- Duration primitives in milliseconds (packages/tokens/src/primitives/duration.ts). -/
def duration : List (String × Nat) := [
  ("duration-0", 0), ("duration-100", 100), ("duration-150", 150),
  ("duration-200", 200), ("duration-300", 300), ("duration-400", 400),
  ("duration-500", 500), ("duration-600", 600), ("duration-800", 800),
  ("duration-1000", 1000), ("duration-1200", 1200), ("duration-1500", 1500),
  ("duration-2000", 2000), ("duration-3000", 3000), ("duration-3600", 3600),
  ("duration-4800", 4800)
]

/-- Bezier curve as the 4-tuple x1, y1, x2, y2. -/
abbrev Bezier : Type := Rat × Rat × Rat × Rat

/-- Easing primitives (packages/tokens/src/primitives/easing.ts). -/
def easing : List (String × Bezier) := [
  ("ease-linear", (0, 0, 1, 1)), ("ease-in", (0.4, 0, 1, 1)),
  ("ease-out", (0, 0, 0.2, 1)), ("ease-in-out", (0.4, 0, 0.2, 1)),
  ("ease-mystical", (0.16, 1, 0.3, 1)), ("ease-bounce", (0.34, 1.56, 0.64, 1))
]

/-- Spring configuration object of the easing primitives. -/
structure SpringCfg where
  damping : Nat
  stiffness : Nat
deriving DecidableEq, Repr

/-- Spring primitives (packages/tokens/src/primitives/easing.ts). -/
def spring : List (String × SpringCfg) := [
  ("spring-gentle", ⟨20, 100⟩), ("spring-default", ⟨15, 150⟩),
  ("spring-bouncy", ⟨10, 200⟩), ("spring-stiff", ⟨25, 300⟩)
]

/-- Semantic spacing table (packages/tokens/src/semantic/spacing.ts); every
value is a lookup into the spacing primitives. -/
def semanticSpacing : List (String × Option Nat) := [
  ("inset-xs", pget spacing "space-1"), ("inset-sm", pget spacing "space-2"),
  ("inset-md", pget spacing "space-4"), ("inset-lg", pget spacing "space-6"),
  ("inset-xl", pget spacing "space-8"), ("inset-2xl", pget spacing "space-12"),
  ("stack-xs", pget spacing "space-1"), ("stack-sm", pget spacing "space-2"),
  ("stack-md", pget spacing "space-4"), ("stack-lg", pget spacing "space-6"),
  ("stack-xl", pget spacing "space-8"), ("stack-2xl", pget spacing "space-12"),
  ("stack-3xl", pget spacing "space-16"),
  ("inline-xs", pget spacing "space-1"), ("inline-sm", pget spacing "space-2"),
  ("inline-md", pget spacing "space-4"), ("inline-lg", pget spacing "space-6"),
  ("inline-xl", pget spacing "space-8"),
  ("layout-gutter", pget spacing "space-4"), ("layout-margin", pget spacing "space-5"),
  ("layout-section", pget spacing "space-12"), ("layout-page", pget spacing "space-16")
]

/-- Composed typography style of one semantic role
(packages/tokens/src/semantic/typography.ts); each field is a lookup into the
corresponding typography primitive table, so a dangling reference is none. -/
structure TypeStyle where
  fontSize : Option Nat
  fontWeight : Option String
  lineHeight : Option Rat
  letterSpacing : Option Rat
deriving DecidableEq, Repr

/-- Semantic typography roles (packages/tokens/src/semantic/typography.ts). -/
def typeStyles : List (String × TypeStyle) := [
  ("type-display-large",
    ⟨pget fontSize "font-size-48", pget fontWeight "font-weight-300",
     pget lineHeight "line-height-120", pget letterSpacing "letter-spacing-tight"⟩),
  ("type-display-medium",
    ⟨pget fontSize "font-size-40", pget fontWeight "font-weight-300",
     pget lineHeight "line-height-120", pget letterSpacing "letter-spacing-tight"⟩),
  ("type-display-small",
    ⟨pget fontSize "font-size-32", pget fontWeight "font-weight-300",
     pget lineHeight "line-height-120", pget letterSpacing "letter-spacing-normal"⟩),
  ("type-heading-xl",
    ⟨pget fontSize "font-size-28", pget fontWeight "font-weight-600",
     pget lineHeight "line-height-140", pget letterSpacing "letter-spacing-normal"⟩),
  ("type-heading-lg",
    ⟨pget fontSize "font-size-24", pget fontWeight "font-weight-600",
     pget lineHeight "line-height-140", pget letterSpacing "letter-spacing-normal"⟩),
  ("type-heading-md",
    ⟨pget fontSize "font-size-20", pget fontWeight "font-weight-600",
     pget lineHeight "line-height-140", pget letterSpacing "letter-spacing-normal"⟩),
  ("type-heading-sm",
    ⟨pget fontSize "font-size-18", pget fontWeight "font-weight-600",
     pget lineHeight "line-height-140", pget letterSpacing "letter-spacing-normal"⟩),
  ("type-body-lg",
    ⟨pget fontSize "font-size-18", pget fontWeight "font-weight-400",
     pget lineHeight "line-height-160", pget letterSpacing "letter-spacing-normal"⟩),
  ("type-body-md",
    ⟨pget fontSize "font-size-16", pget fontWeight "font-weight-400",
     pget lineHeight "line-height-150", pget letterSpacing "letter-spacing-normal"⟩),
  ("type-body-sm",
    ⟨pget fontSize "font-size-14", pget fontWeight "font-weight-400",
     pget lineHeight "line-height-150", pget letterSpacing "letter-spacing-normal"⟩),
  ("type-label-lg",
    ⟨pget fontSize "font-size-16", pget fontWeight "font-weight-500",
     pget lineHeight "line-height-140", pget letterSpacing "letter-spacing-wide"⟩),
  ("type-label-md",
    ⟨pget fontSize "font-size-14", pget fontWeight "font-weight-500",
     pget lineHeight "line-height-140", pget letterSpacing "letter-spacing-wide"⟩),
  ("type-label-sm",
    ⟨pget fontSize "font-size-12", pget fontWeight "font-weight-500",
     pget lineHeight "line-height-140", pget letterSpacing "letter-spacing-wide"⟩),
  ("type-caption",
    ⟨pget fontSize "font-size-12", pget fontWeight "font-weight-400",
     pget lineHeight "line-height-140", pget letterSpacing "letter-spacing-normal"⟩),
  ("type-ritual-symbol",
    ⟨pget fontSize "font-size-72", pget fontWeight "font-weight-400",
     pget lineHeight "line-height-100", pget letterSpacing "letter-spacing-normal"⟩),
  ("type-ritual-title",
    ⟨pget fontSize "font-size-24", pget fontWeight "font-weight-300",
     pget lineHeight "line-height-160", pget letterSpacing "letter-spacing-wider"⟩)
]

/-- Motion style object combining a duration primitive and an easing primitive
(packages/tokens/src/semantic/motion.ts). -/
structure MotionStyle where
  duration : Option Nat
  easing : Option Bezier
deriving DecidableEq, Repr

/-- Semantic motion table (packages/tokens/src/semantic/motion.ts). -/
def motion : List (String × MotionStyle) := [
  ("motion-instant", ⟨pget duration "duration-100", pget easing "ease-out"⟩),
  ("motion-fast", ⟨pget duration "duration-200", pget easing "ease-out"⟩),
  ("motion-default", ⟨pget duration "duration-300", pget easing "ease-in-out"⟩),
  ("motion-slow", ⟨pget duration "duration-500", pget easing "ease-in-out"⟩),
  ("motion-contemplative", ⟨pget duration "duration-800", pget easing "ease-mystical"⟩),
  ("motion-mystical", ⟨pget duration "duration-1200", pget easing "ease-mystical"⟩),
  ("motion-breath-in", ⟨pget duration "duration-3600", pget easing "ease-in-out"⟩),
  ("motion-breath-out", ⟨pget duration "duration-4800", pget easing "ease-in-out"⟩)
]

/-- Semantic spring motion table (packages/tokens/src/semantic/motion.ts). -/
def springMotion : List (String × Option SpringCfg) := [
  ("spring-button", pget spring "spring-default"),
  ("spring-modal", pget spring "spring-gentle"),
  ("spring-card", pget spring "spring-gentle"),
  ("spring-bounce", pget spring "spring-bouncy")
]

/-- Semantic radius table (packages/tokens/src/semantic/radius.ts). -/
def semanticRadius : List (String × Option Nat) := [
  ("radius-none", pget radius "radius-0"),
  ("radius-interactive", pget radius "radius-8"),
  ("radius-container", pget radius "radius-12"),
  ("radius-card", pget radius "radius-16"),
  ("radius-modal", pget radius "radius-20"),
  ("radius-pill", pget radius "radius-full")
]

/-- Semantic z-index table (packages/tokens/src/semantic/z-index.ts). -/
def semanticZIndex : List (String × Option ZVal) := [
  ("z-base", pget zIndex "z-0"), ("z-dropdown", pget zIndex "z-10"),
  ("z-sticky", pget zIndex "z-20"), ("z-overlay", pget zIndex "z-30"),
  ("z-modal", pget zIndex "z-40"), ("z-toast", pget zIndex "z-50")
]

/-- Lookup into a semantic table whose entries may themselves be undefined:
member access followed by a join, so a dangling outer or inner reference both
yield none. -/
def jget {α : Type} (tbl : List (String × Option α)) (k : String) : Option α :=
  (pget tbl k).join

/-- Value of a non-color component token: a number (literal, or copied from a
semantic spacing or radius entry) or a composed typography style. -/
inductive TokenVal where
  | num (n : Option Nat)
  | style (s : Option TypeStyle)
deriving DecidableEq, Repr

/-- Button sizing, radius and typography tokens
(packages/tokens/src/components/button.ts). -/
def buttonTokens : List (String × TokenVal) := [
  ("button-padding-x-sm", .num (jget semanticSpacing "inset-sm")),
  ("button-padding-y-sm", .num (jget semanticSpacing "inset-xs")),
  ("button-padding-x-md", .num (jget semanticSpacing "inset-md")),
  ("button-padding-y-md", .num (jget semanticSpacing "inset-sm")),
  ("button-padding-x-lg", .num (jget semanticSpacing "inset-lg")),
  ("button-padding-y-lg", .num (jget semanticSpacing "inset-md")),
  ("button-min-width-sm", .num (some 64)),
  ("button-min-width-md", .num (some 80)),
  ("button-min-width-lg", .num (some 96)),
  ("button-height-sm", .num (some 32)),
  ("button-height-md", .num (some 40)),
  ("button-height-lg", .num (some 48)),
  ("button-radius", .num (jget semanticRadius "radius-interactive")),
  ("button-radius-pill", .num (jget semanticRadius "radius-pill")),
  ("button-font-sm", .style (pget typeStyles "type-label-sm")),
  ("button-font-md", .style (pget typeStyles "type-label-md")),
  ("button-font-lg", .style (pget typeStyles "type-label-lg")),
  ("button-icon-gap-sm", .num (jget semanticSpacing "inline-xs")),
  ("button-icon-gap-md", .num (jget semanticSpacing "inline-sm")),
  ("button-icon-gap-lg", .num (jget semanticSpacing "inline-sm"))
]

/-- Button color tokens: symbolic string references into the semantic color
table, resolved by consumers at render time
(packages/tokens/src/components/button.ts). -/
def buttonColorTokens : List (String × String) := [
  ("button-primary-background", "interactive-primary"),
  ("button-primary-background-hover", "interactive-primary-hover"),
  ("button-primary-background-active", "interactive-primary-active"),
  ("button-primary-text", "text-on-color"),
  ("button-primary-border", "transparent"),
  ("button-secondary-background", "transparent"),
  ("button-secondary-background-hover", "interactive-secondary"),
  ("button-secondary-background-active", "interactive-secondary-hover"),
  ("button-secondary-text", "text-primary"),
  ("button-secondary-border", "border-default"),
  ("button-ghost-background", "transparent"),
  ("button-ghost-background-hover", "interactive-secondary"),
  ("button-ghost-background-active", "interactive-secondary-hover"),
  ("button-ghost-text", "text-primary"),
  ("button-ghost-border", "transparent"),
  ("button-danger-background", "support-error"),
  ("button-danger-background-hover", "support-error"),
  ("button-danger-background-active", "support-error"),
  ("button-danger-text", "text-on-color"),
  ("button-danger-border", "transparent"),
  ("button-disabled-background", "interactive-disabled"),
  ("button-disabled-text", "text-disabled"),
  ("button-disabled-border", "transparent")
]

/-- Card sizing tokens (packages/tokens/src/components/card.ts). -/
def cardTokens : List (String × TokenVal) := [
  ("card-padding-sm", .num (jget semanticSpacing "inset-sm")),
  ("card-padding-md", .num (jget semanticSpacing "inset-md")),
  ("card-padding-lg", .num (jget semanticSpacing "inset-lg")),
  ("card-radius", .num (jget semanticRadius "radius-card")),
  ("card-gap", .num (jget semanticSpacing "stack-md"))
]

/-- Card color tokens (packages/tokens/src/components/card.ts). -/
def cardColorTokens : List (String × String) := [
  ("card-background", "background-secondary"),
  ("card-background-elevated", "background-primary"),
  ("card-border", "border-subtle")
]

/-- Input sizing and typography tokens
(packages/tokens/src/components/input.ts). -/
def inputTokens : List (String × TokenVal) := [
  ("input-padding-x", .num (jget semanticSpacing "inset-md")),
  ("input-padding-y", .num (jget semanticSpacing "inset-sm")),
  ("input-height-sm", .num (some 36)),
  ("input-height-md", .num (some 44)),
  ("input-height-lg", .num (some 52)),
  ("input-radius", .num (jget semanticRadius "radius-interactive")),
  ("input-font", .style (pget typeStyles "type-body-md")),
  ("input-placeholder-font", .style (pget typeStyles "type-body-md")),
  ("input-label-font", .style (pget typeStyles "type-label-sm")),
  ("input-helper-font", .style (pget typeStyles "type-caption"))
]

/-- Input color tokens (packages/tokens/src/components/input.ts). -/
def inputColorTokens : List (String × String) := [
  ("input-background", "background-primary"),
  ("input-background-disabled", "background-tertiary"),
  ("input-border", "border-default"),
  ("input-border-hover", "border-strong"),
  ("input-border-focus", "border-accent"),
  ("input-border-error", "support-error"),
  ("input-text", "text-primary"),
  ("input-text-placeholder", "text-tertiary"),
  ("input-text-disabled", "text-disabled"),
  ("input-label", "text-secondary"),
  ("input-helper", "text-tertiary"),
  ("input-error", "support-error")
]

/-- Per-component token group as assembled in
packages/tokens/src/components/index.ts: the spread sizing tokens plus the
colors sub-table. -/
structure ComponentEntry where
  tokens : List (String × TokenVal)
  colors : List (String × String)
deriving DecidableEq, Repr

/-- Component token record with the three component groups
(packages/tokens/src/components/index.ts). -/
structure ComponentTokensT where
  button : ComponentEntry
  card : ComponentEntry
  input : ComponentEntry
deriving DecidableEq, Repr

/-- componentTokens of packages/tokens/src/components/index.ts. -/
def componentTokens : ComponentTokensT :=
  ⟨⟨buttonTokens, buttonColorTokens⟩,
   ⟨cardTokens, cardColorTokens⟩,
   ⟨inputTokens, inputColorTokens⟩⟩

/-- Theme enum of packages/tokens/src/index.ts: the closed union
light, dark, trueBlack. -/
inductive Theme where
  | light
  | dark
  | trueBlack
deriving DecidableEq, Repr

/-- Runtime string value of a Theme (TypeScript erases the union type; the
runtime value is the string itself). -/
def themeToString : Theme → String
  | .light => "light"
  | .dark => "dark"
  | .trueBlack => "trueBlack"

/-- getThemeColors of packages/tokens/src/index.ts. The source switches on the
runtime string with cases for light and trueBlack and a combined
dark and default branch, so the function is embedded over arbitrary strings:
every string other than light and trueBlack falls through to the dark table. -/
def getThemeColors (theme : String) : List (String × Option String) :=
  if theme == "light" then lightColors
  else if theme == "trueBlack" then trueBlackColors
  else darkColors

/-- Theme object assembled by createTheme (packages/tokens/src/index.ts),
with exactly the eight fields of the returned object literal. -/
structure ThemeObject where
  colors : List (String × Option String)
  spacing : List (String × Option Nat)
  typography : List (String × TypeStyle)
  motion : List (String × MotionStyle)
  springMotion : List (String × Option SpringCfg)
  radius : List (String × Option Nat)
  zIndex : List (String × Option ZVal)
  components : ComponentTokensT
deriving DecidableEq, Repr

/-- createTheme of packages/tokens/src/index.ts. -/
def createTheme (theme : String) : ThemeObject :=
  ⟨getThemeColors theme, semanticSpacing, typeStyles, motion, springMotion,
   semanticRadius, semanticZIndex, componentTokens⟩

/-- Successor function inside the provider toggleTheme updater
(ThemeProvider source): light to dark, dark to trueBlack, anything else
to light. -/
def cycle (prev : Theme) : Theme :=
  if prev = .light then .dark
  else if prev = .dark then .trueBlack
  else .light

/-- Provider state: the single active theme name held by ThemeProvider. -/
structure ProviderState where
  theme : Theme
deriving DecidableEq, Repr

/-- Construction of the provider state from the optional initialTheme prop;
the source declares the default parameter value light. -/
def initProvider (initialTheme : Option Theme) : ProviderState :=
  ⟨initialTheme.getD .light⟩

/-- toggleTheme of the provider: one step along the fixed cycle. -/
def toggleTheme (s : ProviderState) : ProviderState :=
  ⟨cycle s.theme⟩

/-- setTheme of the provider: direct assignment of a theme name. -/
def setTheme (_s : ProviderState) (t : Theme) : ProviderState :=
  ⟨t⟩

/-- Context value exposed by the provider: the current theme name and the
memoized theme object createTheme(theme). The toggleTheme and setTheme
callbacks of the source context value are embedded as the state transitions
above. -/
structure ThemeContextValue where
  theme : Theme
  themeObject : ThemeObject
deriving DecidableEq, Repr

/-- Context value computed by a mounted provider in state s. -/
def contextValue (s : ProviderState) : ThemeContextValue :=
  ⟨s.theme, createTheme (themeToString s.theme)⟩

/-- useTheme hook: reading the context outside a provider scope (context
null) throws; inside a provider scope it returns the context value. The
throw is embedded as Except.error carrying the message of the thrown Error. -/
def useTheme (ctx : Option ThemeContextValue) : Except String ThemeContextValue :=
  match ctx with
  | none => .error "useTheme must be used within a ThemeProvider"
  | some c => .ok c

/-- useThemeObject hook, defined in terms of useTheme. -/
def useThemeObject (ctx : Option ThemeContextValue) : Except String ThemeObject :=
  (useTheme ctx).map (fun c => c.themeObject)

/-- useColors hook, defined in terms of useTheme. -/
def useColors (ctx : Option ThemeContextValue) :
    Except String (List (String × Option String)) :=
  (useTheme ctx).map (fun c => c.themeObject.colors)

/-- Membership of a key in all three semantic color tables. -/
def isSemanticKey (k : String) : Bool :=
  (lightColors.map Prod.fst).contains k &&
  (darkColors.map Prod.fst).contains k &&
  (trueBlackColors.map Prod.fst).contains k

/-- Association-list lookups agree at every key outside a given exception
list, provided the two lists carry the same key sequence and their paired
entries have equal values at every key outside that list. -/
lemma pget_eq_of_agree {α : Type} (bad : List String) :
    ∀ (l1 l2 : List (String × α)),
      l1.map Prod.fst = l2.map Prod.fst →
      (∀ p ∈ l1.zip l2, p.1.1 ∉ bad → p.1.2 = p.2.2) →
      ∀ k : String, k ∉ bad → pget l1 k = pget l2 k := by
  intro l1
  induction l1 with
  | nil =>
    intro l2 hkeys _ k _
    cases l2 with
    | nil => rfl
    | cons b t2 => simp at hkeys
  | cons a t ih =>
    intro l2 hkeys hvals k hk
    cases l2 with
    | nil => simp at hkeys
    | cons b t2 =>
      simp only [List.map_cons, List.cons.injEq] at hkeys
      obtain ⟨hab, htk⟩ := hkeys
      by_cases hcase : a.1 = k
      · have h1 : (a.1 == k) = true := beq_iff_eq.mpr hcase
        have h2 : (b.1 == k) = true := beq_iff_eq.mpr (hab ▸ hcase)
        have hv : a.2 = b.2 := by
          refine hvals (a, b) ?_ ?_
          · simp [List.zip_cons_cons]
          · rw [hcase]; exact hk
        simp [pget, List.find?_cons_of_pos, h1, h2, hv]
      · have h1 : ¬ ((fun p : String × α => p.1 == k) a = true) := by
          simp [beq_iff_eq]; exact hcase
        have h2 : ¬ ((fun p : String × α => p.1 == k) b = true) := by
          simp [beq_iff_eq]; rw [← hab]; exact hcase
        have e1 : pget (a :: t) k = pget t k := by
          simp only [pget]
          rw [List.find?_cons_of_neg (p := fun q : String × α => q.1 == k) (a := a) t h1]
        have e2 : pget (b :: t2) k = pget t2 k := by
          simp only [pget]
          rw [List.find?_cons_of_neg (p := fun q : String × α => q.1 == k) (a := b) t2 h2]
        rw [e1, e2]
        refine ih t2 htk ?_ k hk
        intro p hp hbad
        refine hvals p ?_ hbad
        rw [List.zip_cons_cons]
        exact List.mem_cons_of_mem _ hp

/-- C1: key-set parity — lightColors, darkColors and trueBlackColors expose
exactly the same set of keys: every key present in one of the three semantic
color tables is present in the other two. -/
theorem semantic_color_key_parity :
    ∀ k : String,
      ((k ∈ lightColors.map Prod.fst) ↔ (k ∈ darkColors.map Prod.fst)) ∧
      ((k ∈ darkColors.map Prod.fst) ↔ (k ∈ trueBlackColors.map Prod.fst)) := by
  have h1 : lightColors.map Prod.fst = darkColors.map Prod.fst := by decide
  have h2 : darkColors.map Prod.fst = trueBlackColors.map Prod.fst := by decide
  intro k
  rw [h1, h2]
  exact ⟨Iff.rfl, Iff.rfl⟩

/-- C2 counterexample: the claim that every component color token entry names
an existing semantic color key fails — cardColorTokens maps card-background to
the string background-secondary, which is not a key of the semantic tables,
and buttonColorTokens maps button-primary-border to the literal value
transparent, which is also not a semantic key. -/
theorem component_color_ref_counterexample :
    pget cardColorTokens "card-background" = some "background-secondary" ∧
    "background-secondary" ∉ lightColors.map Prod.fst ∧
    pget buttonColorTokens "button-primary-border" = some "transparent" ∧
    "transparent" ∉ lightColors.map Prod.fst := by decide

/-- C2 amended: every entry of buttonColorTokens, cardColorTokens and
inputColorTokens names a semantic color key present in all three semantic
tables, except the six button entries whose value is the literal transparent
and the four card and input background entries that name keys absent from
all three tables. -/
theorem component_color_refs_amended :
    buttonColorTokens.filter (fun p => !(isSemanticKey p.2)) =
      [("button-primary-border", "transparent"),
       ("button-secondary-background", "transparent"),
       ("button-ghost-background", "transparent"),
       ("button-ghost-border", "transparent"),
       ("button-danger-border", "transparent"),
       ("button-disabled-border", "transparent")] ∧
    cardColorTokens.filter (fun p => !(isSemanticKey p.2)) =
      [("card-background", "background-secondary"),
       ("card-background-elevated", "background-primary")] ∧
    inputColorTokens.filter (fun p => !(isSemanticKey p.2)) =
      [("input-background", "background-primary"),
       ("input-background-disabled", "background-tertiary")] := by decide

/-- C3: the claim that no semantic color entry is undefined fails on the
light table — the four alert title entries of lightColors reference the
primitive keys ethereal-blue-70, support-green-70, support-amber-70 and
support-red-70, none of which exist (those primitive scales end at 60), so
the entries hold undefined; every other entry of the three tables is
defined. -/
theorem lightColors_alert_title_entries_undefined :
    pget lightColors "alert-info-title" = some none ∧
    pget lightColors "alert-success-title" = some none ∧
    pget lightColors "alert-warning-title" = some none ∧
    pget lightColors "alert-error-title" = some none ∧
    (lightColors.filter (fun p => p.2.isNone)).map Prod.fst =
      ["alert-info-title", "alert-success-title",
       "alert-warning-title", "alert-error-title"] ∧
    darkColors.all (fun p => p.2.isSome) = true ∧
    trueBlackColors.all (fun p => p.2.isSome) = true := by decide

/-- C4: the provider toggleTheme transition follows the fixed successor table
light to dark, dark to trueBlack, trueBlack to light, and three successive
toggles starting from light return the active theme to light. -/
theorem toggleTheme_cycle :
    (toggleTheme ⟨.light⟩).theme = .dark ∧
    (toggleTheme ⟨.dark⟩).theme = .trueBlack ∧
    (toggleTheme ⟨.trueBlack⟩).theme = .light ∧
    (toggleTheme (toggleTheme (toggleTheme ⟨.light⟩))).theme = .light := by
  decide

/-- C5: for each valid theme name, createTheme returns the object with exactly
the eight fields colors, spacing, typography, motion, springMotion, radius,
zIndex and components, where colors is the semantic color table of that theme
and the remaining fields are the theme-independent semantic tables and the
componentTokens table. -/
theorem createTheme_shape :
    createTheme "light" = ⟨lightColors, semanticSpacing, typeStyles, motion,
      springMotion, semanticRadius, semanticZIndex, componentTokens⟩ ∧
    createTheme "dark" = ⟨darkColors, semanticSpacing, typeStyles, motion,
      springMotion, semanticRadius, semanticZIndex, componentTokens⟩ ∧
    createTheme "trueBlack" = ⟨trueBlackColors, semanticSpacing, typeStyles,
      motion, springMotion, semanticRadius, semanticZIndex, componentTokens⟩ :=
  ⟨rfl, rfl, rfl⟩

/-- C6: a provider constructed without an explicit initial theme starts with
active theme light. -/
theorem provider_default_initial_theme :
    (initProvider none).theme = Theme.light := rfl

/-- C7: calling useTheme, useThemeObject or useColors with no enclosing
provider context throws, while inside an active provider scope useTheme
returns the context value and the derived hooks return its projections
without throwing. -/
theorem useTheme_requires_provider :
    useTheme none = .error "useTheme must be used within a ThemeProvider" ∧
    useThemeObject none = .error "useTheme must be used within a ThemeProvider" ∧
    useColors none = .error "useTheme must be used within a ThemeProvider" ∧
    ∀ c : ThemeContextValue,
      useTheme (some c) = .ok c ∧
      useThemeObject (some c) = .ok c.themeObject ∧
      useColors (some c) = .ok c.themeObject.colors :=
  ⟨rfl, rfl, rfl, fun _ => ⟨rfl, rfl, rfl⟩⟩

/-- C8: every role of the semantic typography table defines all four
dimensions fontSize, fontWeight, lineHeight and letterSpacing, and each
resolves to a defined primitive value. -/
theorem typography_roles_complete :
    typeStyles.all (fun p =>
      p.2.fontSize.isSome && p.2.fontWeight.isSome &&
      p.2.lineHeight.isSome && p.2.letterSpacing.isSome) = true := by decide

/-- C9: getThemeColors never rejects an input — every string other than
light and trueBlack falls through to the default branch and yields the dark
color table, and createTheme on such a string returns the full theme object
built on darkColors (the embedding is total, so no input raises an error). -/
theorem invalid_theme_name_defaults_to_dark (s : String)
    (h1 : s ≠ "light") (h2 : s ≠ "trueBlack") :
    getThemeColors s = darkColors ∧
    createTheme s = ⟨darkColors, semanticSpacing, typeStyles, motion,
      springMotion, semanticRadius, semanticZIndex, componentTokens⟩ := by
  have e1 : (s == "light") = false := beq_eq_false_iff_ne.mpr h1
  have e2 : (s == "trueBlack") = false := beq_eq_false_iff_ne.mpr h2
  constructor
  · simp [getThemeColors, e1, e2]
  · simp [createTheme, getThemeColors, e1, e2]

/-- C9 witness: the invalid theme name sepia is neither light nor trueBlack
and getThemeColors indeed yields the dark table there. -/
theorem invalid_theme_name_defaults_to_dark_witness :
    ("sepia" : String) ≠ "light" ∧ ("sepia" : String) ≠ "trueBlack" ∧
    getThemeColors "sepia" = darkColors :=
  ⟨by decide, by decide,
   (invalid_theme_name_defaults_to_dark "sepia" (by decide) (by decide)).1⟩

/-- C10: darkColors and trueBlackColors assign equal values at every semantic
key except exactly the four foundation keys background, surface,
surface-elevated and border, at which they differ. -/
theorem trueBlack_differs_only_in_foundation :
    (∀ k : String,
      k ∉ (["background", "surface", "surface-elevated", "border"] : List String) →
      pget darkColors k = pget trueBlackColors k) ∧
    pget darkColors "background" ≠ pget trueBlackColors "background" ∧
    pget darkColors "surface" ≠ pget trueBlackColors "surface" ∧
    pget darkColors "surface-elevated" ≠ pget trueBlackColors "surface-elevated" ∧
    pget darkColors "border" ≠ pget trueBlackColors "border" := by
  refine ⟨?_, by decide, by decide, by decide, by decide⟩
  refine pget_eq_of_agree _ darkColors trueBlackColors (by decide) ?_
  decide

/-- C10 witness: at the non-foundation key text-primary the dark and
trueBlack tables agree. -/
theorem trueBlack_differs_only_in_foundation_witness :
    ("text-primary" : String) ∉
      (["background", "surface", "surface-elevated", "border"] : List String) ∧
    pget darkColors "text-primary" = pget trueBlackColors "text-primary" :=
  ⟨by decide,
   trueBlack_differs_only_in_foundation.1 "text-primary" (by decide)⟩

end SyncDS
